import Mathlib

/-!
Verification development for the Avito/Moteur listing-scraper repository.

The definitions below are a shallow embedding of the Python sources under
`scraping_select_pages/` (avito_initial.py, avito_main.py) and
`scraping_last_page/` (avito_scraper.py).  Pure string/number manipulation
is translated directly; browser/DOM interaction is modelled by explicit
data (a located element's text, or `none` when the element is absent or
the traversal raises); wall-clock time is modelled as an integer count of
microseconds of local naive time since the epoch; the file system is an
association list from paths to written content; exceptions are modelled
with `Except`.
-/

/-! ## String helpers

Python's `pat in s` substring test, translated to character lists. -/

/-- `matchesAt pat l`: the character list `l` starts with `pat`. -/
def matchesAt : List Char → List Char → Bool
  | [], _ => true
  | _ :: _, [] => false
  | p :: ps, c :: cs => p = c && matchesAt ps cs

/-- `containsList l pat`: `pat` occurs as a contiguous sublist of `l`. -/
def containsList : List Char → List Char → Bool
  | l, pat =>
    match l with
    | [] => pat.isEmpty
    | _ :: rest => matchesAt pat l || containsList rest pat

/-- Python `pat in s` on strings. -/
def strContains (s pat : String) : Bool :=
  containsList s.data pat.data

/-- Python `s.lower()` (modelled on the character list; the phrases the
sources lowercase are plain French text, for which per-character
lowering agrees with Python's `str.lower`). -/
def lowerStr (s : String) : String :=
  String.mk (s.data.map Char.toLower)

/-- Python `re.search(r'(\d+)', s)`: the first maximal run of digits, or
`none` when the string has no digit. -/
def firstDigitRun : List Char → Option (List Char)
  | [] => none
  | c :: cs =>
    if c.isDigit then some (c :: cs.takeWhile Char.isDigit)
    else firstDigitRun cs

/-- Python `int(...)` applied to a run of decimal digit characters. -/
def digitsToNat (ds : List Char) : Nat :=
  ds.foldl (fun a c => 10 * a + (c.toNat - 48)) 0

/-! ## Wall-clock time and the relative-date normalizer

`avito_initial.py` (and, identically, `avito_scraper.py`) defines
`convert_relative_date`.  A `datetime` value is modelled as microseconds
of local naive time since the epoch.  `strftime("%Y-%m-%d %H:%M:%S")`
renders the instant truncated to the second and
`strftime("%Y-%m-%d")` renders it truncated to the calendar day, so the
output is modelled by the truncated value itself, tagged with the
precision that the chosen format string keeps. -/

/-- The information content of `convert_relative_date`'s output string:
a second-precision timestamp, a day-precision date, or the
`"Date inconnue"` sentinel. -/
inductive DateOutput where
  | timestamp (sec : Int)
  | dateOnly (day : Int)
  | unknown
deriving DecidableEq, Repr

/-- Truncation to seconds performed by `strftime("%Y-%m-%d %H:%M:%S")`.
`/` on `Int` is floor division, which is how calendar truncation acts on
an instant measured from the epoch. -/
def toSec (usec : Int) : Int := usec / 1000000

/-- Truncation to days performed by `strftime("%Y-%m-%d")`. -/
def toDay (usec : Int) : Int := usec / 86400000000

/-- `convert_relative_date` from avito_initial.py lines 58-95 (the same
function appears in avito_scraper.py lines 80-117).  `now` is
`datetime.now()` in microseconds. -/
def convert_relative_date (now : Int) (relative_date : String) : DateOutput :=
  if strContains (lowerStr relative_date) "quelques instants" then
    .timestamp (toSec now)
  else
    match firstDigitRun relative_date.data with
    | none => .unknown
    | some ds =>
      let num : Int := (digitsToNat ds : Int)
      if strContains relative_date "minute" then
        .timestamp (toSec (now - num * 60 * 1000000))
      else if strContains relative_date "heure" then
        .timestamp (toSec (now - num * 3600 * 1000000))
      else if strContains relative_date "jour" then
        .dateOnly (toDay (now - num * 86400000000))
      else if strContains relative_date "mois" then
        .dateOnly (toDay (now - 30 * num * 86400000000))
      else if strContains relative_date "an" then
        .dateOnly (toDay (now - 365 * num * 86400000000))
      else .unknown

/-- C4 sanity example. -/
example :
    convert_relative_date 1000000000 "il y a 5 minutes"
      = .timestamp 700 := by decide

example :
    convert_relative_date 1000000000 "hier" = .unknown := by decide

example (now : Int) (n : Nat) :
    toSec (now - (n : Int) * 60 * 1000000) + 60 * n = toSec now := by
  unfold toSec; omega

/-! ## Decimal rendering and the folder-identity function

Python `f"{idx}"` renders a non-negative integer in decimal.  The
rendering is defined with explicit fuel so that it is structural and the
kernel can evaluate it on concrete ordinals. -/

/-- Decimal digits of `n`, most significant first; `fuel` bounds the
recursion depth (any `fuel > n` is enough). -/
def natDigitsAux : Nat → Nat → List Char
  | 0, _ => []
  | fuel + 1, n =>
    if n < 10 then [Nat.digitChar n]
    else natDigitsAux fuel (n / 10) ++ [Nat.digitChar (n % 10)]

/-- Decimal digits of `n`, most significant first. -/
def natDigits (n : Nat) : List Char := natDigitsAux (n + 1) n

/-- Python `f"{n}"` for a non-negative int `n`. -/
def natRepr (n : Nat) : String := String.mk (natDigits n)

/-- Python `\w` (word character) on the characters the titles use; the
complement class `[^\w\s-]` of `create_folder_name` strips everything
else. -/
def isWordChar (c : Char) : Bool := c.isAlphanum || c = '_'

/-- Characters kept by `re.sub(r'[^\w\s-]', '', title)`. -/
def keepChar (c : Char) : Bool := isWordChar c || c.isWhitespace || c = '-'

/-- `re.sub(r'\s+', '_', ·)`: replace each maximal whitespace run by one
underscore.  The flag records whether the previous character was part of
a whitespace run already rewritten. -/
def collapseWsAux : Bool → List Char → List Char
  | _, [] => []
  | prevWs, c :: cs =>
    if c.isWhitespace then
      if prevWs then collapseWsAux true cs
      else '_' :: collapseWsAux true cs
    else c :: collapseWsAux false cs

/-- `create_folder_name` from avito_initial.py lines 98-108 (identical in
avito_scraper.py lines 120-130): strip characters outside `[\w\s-]`,
collapse whitespace runs to `_`, truncate to 50 characters, then prepend
`f"{idx}_"`. -/
def create_folder_name (title : String) (idx : Nat) : String :=
  natRepr idx ++ "_" ++ String.mk ((collapseWsAux false (title.data.filter keepChar)).take 50)

example : create_folder_name "Toyota Yaris 2020!!" 7 = "7_Toyota_Yaris_2020" := by decide

/-! ## Image download and harvesting

`download_image` appears identically in avito_main.py lines 63-92 and
avito_scraper.py lines 133-162.  The network is an oracle from URL to
fetch outcome; the file system is an association list from path to the
chunk list written at that path.  A streamed body is the list of chunks
the server delivers before either finishing or raising mid-transfer. -/

/-- Outcome of `requests.get(url, stream=True)` followed by
`raise_for_status()` and `iter_content`: either the request itself fails
(connection error, timeout, non-2xx status — nothing is opened on disk),
or headers arrive with a `Content-Type` and the body yields `chunks`
before the stream either completes or raises (`interrupted = true`). -/
inductive FetchOutcome where
  | netErr
  | stream (contentType : String) (chunks : List String) (interrupted : Bool)
deriving DecidableEq, Repr

/-- The file system: written paths with their content. -/
abbrev FS := List (String × List String)

/-- Extension choice of `download_image`: `.png` when the declared
content type mentions png, `.jpg` when it mentions jpeg/jpg, `.jpg`
otherwise (the default). -/
def extFor (content_type : String) : String :=
  if strContains content_type "png" then ".png"
  else if strContains content_type "jpeg" || strContains content_type "jpg" then ".jpg"
  else ".jpg"

/-- `download_image(image_url, folder_path, image_name)`.  Every
exception is caught by the function's own `try/except`, which returns
`None`; the model is therefore total.  The file at `image_path` is
opened before the body is streamed, so on a mid-stream exception the
chunks already delivered remain on disk and the function still returns
`None`.  On success it returns `os.path.basename(image_path)`. -/
def download_image (net : String → FetchOutcome) (fs : FS)
    (image_url folder_path image_name : String) : Option String × FS :=
  match net image_url with
  | .netErr => (none, fs)
  | .stream ct chunks interrupted =>
    let image_path := folder_path ++ "/" ++ image_name ++ extFor ct
    let fs1 := (image_path, chunks) :: fs
    if interrupted then (none, fs1)
    else (some (image_name ++ extFor ct), fs1)

/-- One `<img>` element found by the carousel selectors;
`get_attribute("src")` is `none` when the attribute is absent. -/
structure ImgElem where
  src : Option String
deriving DecidableEq, Repr

/-- The image loop of `scrape_details` (avito_scraper.py lines 197-208,
identical in avito_main.py lines 128-139): `enumerate` the elements,
download `image_{i+1}` for each element with a src, and append
`os.path.join(folder_name, filename)` only when `download_image`
returned a filename.  A failed download is logged and skipped: the loop
continues with the next element and the positional index is not
renumbered. -/
def harvestImages (net : String → FetchOutcome) (fs : FS)
    (folder_name listing_folder : String) :
    List ImgElem → Nat → List String × FS
  | [], _ => ([], fs)
  | e :: rest, i =>
    match e.src with
    | none => harvestImages net fs folder_name listing_folder rest (i + 1)
    | some url =>
      match download_image net fs url listing_folder ("image_" ++ natRepr (i + 1)) with
      | (none, fs1) => harvestImages net fs1 folder_name listing_folder rest (i + 1)
      | (some fname, fs1) =>
        let r := harvestImages net fs1 folder_name listing_folder rest (i + 1)
        ((folder_name ++ "/" ++ fname) :: r.1, r.2)

/-- The image selector chain of `scrape_details`: the primary selector
`div.picture img`, then `.sc-1gjavk-0` when the primary finds nothing. -/
def resolveImageElems (primary alt : List ImgElem) : List ImgElem :=
  if primary.isEmpty then alt else primary

/-! ## The detail-page document model and the field scan

One labelled attribute element (`div.sc-19cngu6-1`): the two inner
`find_element` calls yield the stripped value and label texts, and any
`NoSuchElement`/stale-element exception in that traversal is modelled by
`none` (the loop's `except` clause does `continue`). -/

structure AttrElem where
  pair : Option (String × String)
deriving DecidableEq, Repr

/-- The rendered detail page as the extraction code observes it. -/
structure DetailPage where
  /-- `driver.execute_script("window.scrollTo...")` raised (e.g. the
  session crashed after navigation); this lands in the outermost
  `except` of `scrape_details`. -/
  scrollFails : Bool
  /-- elements found by `div.picture img`. -/
  pictureImgs : List ImgElem
  /-- elements found by the fallback selector `.sc-1gjavk-0`. -/
  altImgs : List ImgElem
  /-- text of the seller-location header `span[class*=iKguVF]`,
  `none` when absent (the inner `except` only logs). -/
  headerLoc : Option String
  /-- the labelled attribute elements `div[class*=sc-19cngu6-1]`, as
  (value, label) text pairs. -/
  attrs : List AttrElem
  /-- text of the `Categorie` preceding-sibling fallback element,
  `none` when absent. -/
  categoryFallback : Option String
  /-- the value-only leaves matched by the equipment XPath, as
  (own text, parent text) pairs. -/
  equipLeaves : List (String × String)
  /-- some traversal inside the equipment section raised, aborting that
  section (its `except` only logs). -/
  equipRaises : Bool
deriving DecidableEq, Repr

/-- The twelve mutable field variables of `scrape_details`, all
initialised to the `"N/A"` sentinel. -/
structure DetailState where
  car_type : String
  location : String
  mileage : String
  brand : String
  model : String
  doors : String
  origin : String
  first_hand : String
  fiscal_power : String
  condition : String
  equipment_text : String
  seller_city : String
deriving DecidableEq, Repr

/-- All fields default to `"N/A"` before resolution begins. -/
def initState : DetailState :=
  ⟨"N/A", "N/A", "N/A", "N/A", "N/A", "N/A", "N/A", "N/A", "N/A", "N/A", "N/A", "N/A"⟩

/-- `location.split(',')[0] if ',' in location else location`. -/
def firstSegment (s : String) : String :=
  if strContains s "," then String.mk (s.data.takeWhile (fun c => c ≠ ',')) else s

/-- The mutable variable (if any) that one pass of the label-matching
`if/elif` chain assigns. -/
inductive Slot where
  | ignored
  | car_type | mileage | brand | model | doors | origin
  | first_hand | fiscal_power | condition | location
deriving DecidableEq, Repr

/-- The label-matching `if/elif` chain of `scrape_details` (avito_main.py
lines 190-213, identical in avito_scraper.py lines 259-282), factored as
the selection half: which variable the chain assigns for a given label
text.  The `"Année-Modèle"` branch does `pass` and an unmatched label
falls through, both leaving the state unchanged (`ignored`). -/
def labelSlot (label : String) : Slot :=
  if strContains label "Année-Modèle" then .ignored
  else if strContains label "Type de véhicule" || strContains label "Catégorie" then
    .car_type
  else if strContains label "Kilométrage" then .mileage
  else if strContains label "Marque" then .brand
  else if strContains label "Modèle" then .model
  else if strContains label "Nombre de portes" then .doors
  else if strContains label "Origine" then .origin
  else if strContains label "Première main" then .first_hand
  else if strContains label "Puissance fiscale" then .fiscal_power
  else if strContains label "État" then .condition
  else if strContains label "Secteur" then .location
  else .ignored

/-- The assignment half of the chain: write `value` into the selected
variable. -/
def writeSlot (st : DetailState) (s : Slot) (value : String) : DetailState :=
  match s with
  | .ignored => st
  | .car_type => { st with car_type := value }
  | .mileage => { st with mileage := value }
  | .brand => { st with brand := value }
  | .model => { st with model := value }
  | .doors => { st with doors := value }
  | .origin => { st with origin := value }
  | .first_hand => { st with first_hand := value }
  | .fiscal_power => { st with fiscal_power := value }
  | .condition => { st with condition := value }
  | .location => { st with location := value }

/-- One attribute element applied to the scan state.  A `none` pair
models the element whose value/label traversal raised: the loop
`continue`s, leaving the state unchanged. -/
def applyAttr (st : DetailState) (a : AttrElem) : DetailState :=
  match a.pair with
  | none => st
  | some (value, label) => writeSlot st (labelSlot label) value

/-- The equipment section: keep leaves whose parent text carries none of
the recognised attribute markers, and join them with `", "`; keep the
`"N/A"` sentinel when the section raised or nothing was kept. -/
def equipmentText (leaves : List (String × String)) (raised : Bool) : String :=
  if raised then "N/A"
  else
    let kept := leaves.filter (fun p =>
      !(strContains p.2 "Type de") && !(strContains p.2 "Année") && !(strContains p.2 "Marque"))
    if kept.isEmpty then "N/A"
    else String.intercalate ", " (kept.map (fun p => p.1))

/-- The seller-location header step: when the `iKguVF` span is found,
its text becomes `location` and its first comma segment `seller_city`;
when it is absent the inner `except` only logs. -/
def headerState (headerLoc : Option String) : DetailState :=
  match headerLoc with
  | some s => { initState with location := s, seller_city := firstSegment s }
  | none => initState

/-- The `Categorie` preceding-sibling fallback, consulted only while
`car_type` still holds the sentinel. -/
def applyCategoryFallback (st : DetailState) (fb : Option String) : DetailState :=
  if st.car_type = "N/A" then
    match fb with
    | some t => { st with car_type := t }
    | none => st
  else st

/-- The field-resolution body of `scrape_details` once the page is
rendered: seller-location header first (also deriving `seller_city`),
then the labelled-attribute scan, then the `Categorie` fallback applied
only while `car_type` is still the sentinel, then the equipment join. -/
def detailFields (page : DetailPage) : DetailState :=
  { applyCategoryFallback (page.attrs.foldl applyAttr (headerState page.headerLoc))
      page.categoryFallback with
    equipment_text := equipmentText page.equipLeaves page.equipRaises }

/-- The chain reaches its `"Secteur"` branch for this label: every
earlier label test fails and the label contains `"Secteur"`. -/
def secteurBranch (label : String) : Bool :=
  labelSlot label == Slot.location

/-- Whether one attribute element writes the `location` slot. -/
def writesLocation (a : AttrElem) : Bool :=
  match a.pair with
  | none => false
  | some (_, label) => secteurBranch label

/-- The chain reaches the `car_type` branch for this label. -/
def carTypeBranch (label : String) : Bool :=
  labelSlot label == Slot.car_type

/-- Whether one attribute element writes the `car_type` slot. -/
def writesCarType (a : AttrElem) : Bool :=
  match a.pair with
  | none => false
  | some (_, label) => carTypeBranch label

/-! ## Detail extraction, per site variant

`driver.get(url)` may raise (navigation timeout, session crash).  In BOTH
avito variants this call — together with the settle sleep and the folder
creation — happens BEFORE the `try` block of `scrape_details`, so such an
exception leaves the function by propagation, modelled with `Except`. -/

/-- Outcome of the `driver.get(url)` call that opens a detail visit. -/
inductive VisitOutcome where
  | navFail
  | loaded (page : DetailPage)
deriving Repr

namespace SelectPages

/-- The 13-entry detail list returned by the select-pages
`scrape_details` on success (avito_main.py line 246); the harvested
image paths are accumulated but not part of this variant's record. -/
def detailRecord (page : DetailPage) (folder_name : String) : List String :=
  [(detailFields page).car_type, (detailFields page).location,
   (detailFields page).mileage, (detailFields page).brand,
   (detailFields page).model, (detailFields page).doors,
   (detailFields page).origin, (detailFields page).first_hand,
   (detailFields page).fiscal_power, (detailFields page).condition,
   (detailFields page).equipment_text, (detailFields page).seller_city,
   folder_name]

/-- `scrape_details` from scraping_select_pages/avito_main.py lines
95-250.  The outermost `try` begins only after `driver.get`, the sleep
and the folder creation, so `VisitOutcome.navFail` becomes
`Except.error`; an exception inside the `try` (modelled by
`scrollFails`) is converted to the all-`"N/A"` record by the final
`except` clause. -/
def scrape_details (net : String → FetchOutcome) (fs : FS)
    (folder_name : String) (v : VisitOutcome) :
    Except Unit (List String × FS) :=
  let listing_folder := "../data/avito/images/" ++ folder_name
  match v with
  | .navFail => .error ()
  | .loaded page =>
    if page.scrollFails then
      .ok (List.replicate 12 "N/A" ++ [folder_name], fs)
    else
      let imgs := resolveImageElems page.pictureImgs page.altImgs
      let h := harvestImages net fs folder_name listing_folder imgs 0
      .ok (detailRecord page folder_name, h.2)

/-- The per-listing loop of `process_detailed_data` (avito_main.py lines
283-293): each basic CSV row (10 columns, folder name at index 9) is
paired with the outcome of its detail visit; `scrape_details` is called
WITHOUT any surrounding `try`, so an error aborts the whole loop and no
further listing is visited. -/
def process_detailed_data (net : String → FetchOutcome) (fs : FS)
    (items : List (List String × VisitOutcome)) :
    Except Unit (List (List String)) :=
  match items with
  | [] => .ok []
  | (row, v) :: rest =>
    let folder_name := row.getD 9 ""
    match scrape_details net fs folder_name v with
    | .error e => .error e
    | .ok (details, fs1) =>
      match process_detailed_data net fs1 rest with
      | .error e => .error e
      | .ok tail => .ok ((row.take 8 ++ details) :: tail)

end SelectPages

namespace LastPage

/-- The 14-entry detail list returned by the last-page `scrape_details`
on success (avito_scraper.py line 315): the 13 select-pages entries plus
`", ".join(images_paths)`. -/
def detailRecord (page : DetailPage) (folder_name : String)
    (images_paths : List String) : List String :=
  [(detailFields page).car_type, (detailFields page).location,
   (detailFields page).mileage, (detailFields page).brand,
   (detailFields page).model, (detailFields page).doors,
   (detailFields page).origin, (detailFields page).first_hand,
   (detailFields page).fiscal_power, (detailFields page).condition,
   (detailFields page).equipment_text, (detailFields page).seller_city,
   folder_name, String.intercalate ", " images_paths]

/-- The record returned by the final `except` clause of the last-page
`scrape_details` (avito_scraper.py line 319):
`["N/A"] * 12 + [folder_name, ""]`. -/
def failureRecord (folder_name : String) : List String :=
  List.replicate 12 "N/A" ++ [folder_name, ""]

/-- `scrape_details` from scraping_last_page/avito_scraper.py lines
165-319.  Identical to the select-pages variant except that the returned
list has the 14th joined-paths entry and the failure record is
`["N/A"] * 12 + [folder_name, ""]`. -/
def scrape_details (net : String → FetchOutcome) (fs : FS)
    (folder_name : String) (v : VisitOutcome) :
    Except Unit (List String × FS) :=
  let listing_folder := "../data/avito/images/" ++ folder_name
  match v with
  | .navFail => .error ()
  | .loaded page =>
    if page.scrollFails then
      .ok (failureRecord folder_name, fs)
    else
      let imgs := resolveImageElems page.pictureImgs page.altImgs
      let h := harvestImages net fs folder_name listing_folder imgs 0
      .ok (detailRecord page folder_name h.1, h.2)

/-- `complete_headers` from avito_scraper.py lines 457-461 (the same list
is `new_headers` in avito_main.py lines 275-279), verbatim. -/
def complete_headers : List String :=
  ["ID", "Titre", "Prix", "Date de publication", "Année", "Type de carburant",
   "Transmission", "Créateur", "Type de véhicule", "Secteur", "Kilométrage",
   "Marque", "Modèle", "Nombre de portes", "Origine", "Première main",
   "Puissance fiscale", "État", "Équipements", "Ville du vendeur",
   "Dossier d'images"]

/-- `combined_row = row[:8] + details` (avito_scraper.py line 478). -/
def combinedRow (row details : List String) : List String :=
  row.take 8 ++ details

end LastPage

/-! ## Listing discovery

`scrape_avito` from scraping_select_pages/avito_initial.py lines 111-200
(the last-page variant restricts the same loop body to page 1).  A page
either times out waiting for the listings container — `continue` —, or
renders a list of listing elements (an empty list is also skipped with
`continue`).  Each listing element either yields its eight extracted
texts or raises somewhere during extraction; the per-listing `except`
logs and drops exactly that listing. -/

/-- The eight texts extracted from one listing card. -/
structure ListingFields where
  title : String
  price : String
  pubDateRaw : String
  year : String
  fuel : String
  transmission : String
  creator : String
  link : String
deriving DecidableEq, Repr

inductive ListingOutcome where
  | ok (f : ListingFields)
  | err
deriving Repr

inductive PageOutcome where
  | timeout
  | loaded (listings : List ListingOutcome)
deriving Repr

/-- The row appended for a successfully constructed listing:
`[listing_id_counter, title, price, convert_relative_date(pub_date_raw),
year, fuel_type, transmission, creator, link,
create_folder_name(title, listing_id_counter)]`.  `fmt` is the
`strftime` rendering of the converted date (calendar text is not
modelled; `DateOutput` carries the truncated value). -/
def mkRow (now : Int) (fmt : DateOutput → String) (id : Nat) (f : ListingFields) :
    List String :=
  [natRepr id, f.title, f.price, fmt (convert_relative_date now f.pubDateRaw),
   f.year, f.fuel, f.transmission, f.creator, f.link,
   create_folder_name f.title id]

/-- The inner listing loop: on success append the row and increment the
counter; the per-listing `except` drops the listing and leaves the
counter unchanged. -/
def processListings (now : Int) (fmt : DateOutput → String) :
    List ListingOutcome → Nat → List (List String) × Nat
  | [], ctr => ([], ctr)
  | .err :: rest, ctr => processListings now fmt rest ctr
  | .ok f :: rest, ctr =>
    let r := processListings now fmt rest (ctr + 1)
    (mkRow now fmt ctr f :: r.1, r.2)

/-- The page loop, threading `listing_id_counter` across pages. -/
def scrapeAvitoPages (now : Int) (fmt : DateOutput → String) :
    List PageOutcome → Nat → List (List String)
  | [], _ => []
  | .timeout :: rest, ctr => scrapeAvitoPages now fmt rest ctr
  | .loaded ls :: rest, ctr =>
    let r := processListings now fmt ls ctr
    r.1 ++ scrapeAvitoPages now fmt rest r.2

/-- `scrape_avito(start_page, end_page)`: the counter is initialised to 1
before the first page. -/
def scrape_avito (now : Int) (fmt : DateOutput → String)
    (pages : List PageOutcome) : List (List String) :=
  scrapeAvitoPages now fmt pages 1

/-- Modelled from the spec: the discovery invariant that ordinal
identities are the consecutive integers starting at 1, assigned in order
to exactly the successfully constructed listings. -/
def specAssignIds (now : Int) (fmt : DateOutput → String) :
    Nat → List ListingFields → List (List String)
  | _, [] => []
  | ctr, f :: rest => mkRow now fmt ctr f :: specAssignIds now fmt (ctr + 1) rest

/-- The successfully constructed listings of one page's element list. -/
def okOf (ls : List ListingOutcome) : List ListingFields :=
  ls.filterMap (fun o => match o with | .ok f => some f | .err => none)

/-- All successfully constructed listings of a run, in discovery order. -/
def okFields : List PageOutcome → List ListingFields
  | [] => []
  | .timeout :: rest => okFields rest
  | .loaded ls :: rest => okOf ls ++ okFields rest

/-- Numeric value of a decimal digit list (verification helper, used to
show that `natDigits` is injective). -/
def evalDigits (ds : List Char) : Nat :=
  ds.foldl (fun a c => 10 * a + (c.toNat - 48)) 0

/-! # Theorems -/

/-- C4: for every phrase of the "N minutes ago" form — it contains the
minute keyword, its first digit run reads N, and it is not an "instants"
phrase — `convert_relative_date` outputs a second-precision timestamp
such that adding N minutes to it reproduces the capture time truncated
to the second. -/
theorem convert_minutes_roundtrip (now : Int) (rel : String) (ds : List Char) (N : Nat)
    (hinst : strContains (lowerStr rel) "quelques instants" = false)
    (hds : firstDigitRun rel.data = some ds)
    (hN : digitsToNat ds = N)
    (hmin : strContains rel "minute" = true) :
    ∃ t : Int, convert_relative_date now rel = .timestamp t ∧
      t + 60 * (N : Int) = toSec now := by
  refine ⟨toSec (now - (N : Int) * 60 * 1000000), ?_, ?_⟩
  · simp only [convert_relative_date, hinst, hds, hmin, hN, Bool.false_eq_true,
      if_false, if_true]
  · unfold toSec
    omega

/-- C4 witness. -/
theorem convert_minutes_roundtrip_witness :
    ∃ t : Int, convert_relative_date 1000000000 "il y a 5 minutes" = .timestamp t ∧
      t + 60 * ((5 : Nat) : Int) = toSec 1000000000 :=
  convert_minutes_roundtrip 1000000000 "il y a 5 minutes" ['5'] 5
    (by decide) (by decide) (by decide) (by decide)

/-- C5: `convert_relative_date` is total and returns the "unknown"
sentinel when a non-"instants" phrase has no digit run, or has a digit
run but none of the recognised unit keywords; an "instants" phrase
short-circuits to the (second-truncated) current time without a number
being parsed — the result is `now` even when the phrase has no digit. -/
theorem convert_sentinel_cases (now : Int) (rel : String) :
    (strContains (lowerStr rel) "quelques instants" = true →
      convert_relative_date now rel = .timestamp (toSec now)) ∧
    (strContains (lowerStr rel) "quelques instants" = false →
      firstDigitRun rel.data = none →
      convert_relative_date now rel = .unknown) ∧
    (∀ ds, strContains (lowerStr rel) "quelques instants" = false →
      firstDigitRun rel.data = some ds →
      strContains rel "minute" = false →
      strContains rel "heure" = false →
      strContains rel "jour" = false →
      strContains rel "mois" = false →
      strContains rel "an" = false →
      convert_relative_date now rel = .unknown) := by
  refine ⟨fun h => ?_, fun h hn => ?_, fun ds h hs h1 h2 h3 h4 h5 => ?_⟩
  · simp only [convert_relative_date, h, if_true]
  · simp only [convert_relative_date, h, hn, Bool.false_eq_true, if_false]
  · simp only [convert_relative_date, h, hs, h1, h2, h3, h4, h5,
      Bool.false_eq_true, if_false]

/-- C5 witness. -/
theorem convert_sentinel_cases_witness :
    convert_relative_date 123456789 "il y a quelques instants"
      = .timestamp (toSec 123456789) ∧
    convert_relative_date 123456789 "hier" = .unknown ∧
    convert_relative_date 123456789 "il y a 5 semaines" = .unknown :=
  ⟨(convert_sentinel_cases 123456789 "il y a quelques instants").1 (by decide),
   (convert_sentinel_cases 123456789 "hier").2.1 (by decide) (by decide),
   (convert_sentinel_cases 123456789 "il y a 5 semaines").2.2 ['5']
     (by decide) (by decide) (by decide) (by decide) (by decide) (by decide)
     (by decide)⟩

/-- A decimal digit character is never an underscore. -/
theorem digitChar_ne_underscore (d : Nat) (h : d < 10) : Nat.digitChar d ≠ '_' := by
  interval_cases d <;> decide

/-- Numeric value of a decimal digit character. -/
theorem digitChar_val (d : Nat) (h : d < 10) : (Nat.digitChar d).toNat - 48 = d := by
  interval_cases d <;> decide

/-- No character of `natDigitsAux fuel n` is an underscore. -/
theorem natDigitsAux_ne_underscore (fuel : Nat) :
    ∀ n, n < fuel → ∀ c ∈ natDigitsAux fuel n, c ≠ '_' := by
  induction fuel with
  | zero => intro n hn; omega
  | succ fuel ih =>
    intro n hn c hc
    simp only [natDigitsAux] at hc
    by_cases h10 : n < 10
    · rw [if_pos h10] at hc
      simp only [List.mem_singleton] at hc
      subst hc; exact digitChar_ne_underscore n h10
    · rw [if_neg h10] at hc
      rcases List.mem_append.mp hc with h | h
      · exact ih (n / 10) (by omega) c h
      · simp only [List.mem_singleton] at h
        subst h; exact digitChar_ne_underscore (n % 10) (Nat.mod_lt n (by omega))

/-- `natDigitsAux` really renders `n` in decimal. -/
theorem natDigitsAux_eval (fuel : Nat) :
    ∀ n, n < fuel → evalDigits (natDigitsAux fuel n) = n := by
  induction fuel with
  | zero => intro n hn; omega
  | succ fuel ih =>
    intro n hn
    simp only [natDigitsAux]
    by_cases h10 : n < 10
    · rw [if_pos h10]
      simp only [evalDigits, List.foldl_cons, List.foldl_nil]
      rw [digitChar_val n h10]
      omega
    · rw [if_neg h10]
      simp only [evalDigits, List.foldl_append, List.foldl_cons, List.foldl_nil]
      have h1 : (natDigitsAux fuel (n / 10)).foldl
          (fun a c => 10 * a + (c.toNat - 48)) 0 = n / 10 := ih (n / 10) (by omega)
      rw [h1, digitChar_val (n % 10) (Nat.mod_lt n (by omega))]
      omega

/-- Decimal rendering is injective. -/
theorem natDigits_inj {m n : Nat} (h : natDigits m = natDigits n) : m = n := by
  have hm := natDigitsAux_eval (m + 1) m (by omega)
  have hn := natDigitsAux_eval (n + 1) n (by omega)
  unfold natDigits at h
  rw [← hm, ← hn, h]

/-- Splitting at the first underscore: underscore-free prefixes of an
underscore-separated concatenation agree. -/
theorem append_underscore_inj :
    ∀ (a b t u : List Char), ('_' ∉ a) → ('_' ∉ b) →
      a ++ '_' :: t = b ++ '_' :: u → a = b := by
  intro a
  induction a with
  | nil =>
    intro b t u _ hb h
    cases b with
    | nil => rfl
    | cons d ds =>
      simp only [List.nil_append, List.cons_append, List.cons.injEq] at h
      exact absurd (show ('_' : Char) ∈ d :: ds by
        rw [← h.1]; exact List.mem_cons_self _ _) hb
  | cons c cs ih =>
    intro b t u ha hb h
    cases b with
    | nil =>
      simp only [List.cons_append, List.nil_append, List.cons.injEq] at h
      exact absurd (show ('_' : Char) ∈ c :: cs by
        rw [h.1]; exact List.mem_cons_self _ _) ha
    | cons d ds =>
      simp only [List.cons_append, List.cons.injEq] at h
      have : cs = ds :=
        ih ds t u (fun hx => ha (List.mem_cons_of_mem c hx))
          (fun hx => hb (List.mem_cons_of_mem d hx)) h.2
      rw [h.1, this]

/-- C6: the folder-identity function is injective in the ordinal: for
two positive ordinals that differ, the produced folder names differ, for
any titles — the 50-character truncation is applied to the sanitized
title before the `<ordinal>_` prefix is prepended, and the decimal
prefix up to the first underscore determines the ordinal. -/
theorem create_folder_name_ordinal_inj (t1 t2 : String) (i1 i2 : Nat)
    (_hp1 : 1 ≤ i1) (_hp2 : 1 ≤ i2) (hne : i1 ≠ i2) :
    create_folder_name t1 i1 ≠ create_folder_name t2 i2 := by
  intro he
  apply hne
  have hd : (create_folder_name t1 i1).data = (create_folder_name t2 i2).data := by
    rw [he]
  simp only [create_folder_name, natRepr, String.data_append, List.append_assoc] at hd
  have h1 : ∀ c ∈ natDigits i1, c ≠ '_' :=
    natDigitsAux_ne_underscore (i1 + 1) i1 (by omega)
  have h2 : ∀ c ∈ natDigits i2, c ≠ '_' :=
    natDigitsAux_ne_underscore (i2 + 1) i2 (by omega)
  exact natDigits_inj
    (append_underscore_inj (natDigits i1) (natDigits i2) _ _
      (fun hx => h1 '_' hx rfl) (fun hx => h2 '_' hx rfl) (by exact hd))

/-- C6 witness. -/
theorem create_folder_name_ordinal_inj_witness :
    create_folder_name "Toyota Yaris" 1 ≠ create_folder_name "Toyota Yaris" 2 :=
  create_folder_name_ordinal_inj "Toyota Yaris" "Toyota Yaris" 1 2
    (by decide) (by decide) (by decide)

/-- The listing loop assigns consecutive ordinals from `ctr` to exactly
the successfully constructed listings; a dropped listing leaves the
counter unchanged. -/
theorem processListings_eq (now : Int) (fmt : DateOutput → String) :
    ∀ (ls : List ListingOutcome) (ctr : Nat),
      processListings now fmt ls ctr
        = (specAssignIds now fmt ctr (okOf ls), ctr + (okOf ls).length) := by
  intro ls
  induction ls with
  | nil => intro ctr; simp [processListings, okOf, specAssignIds]
  | cons o rest ih =>
    intro ctr
    cases o with
    | err => simpa [processListings, okOf] using ih ctr
    | ok f =>
      simp only [processListings, ih (ctr + 1), okOf, List.filterMap_cons,
        specAssignIds, List.length_cons, Prod.mk.injEq]
      exact ⟨trivial, by omega⟩

/-- `specAssignIds` distributes over concatenation, shifting the
counter by the length of the first block. -/
theorem specAssignIds_append (now : Int) (fmt : DateOutput → String) :
    ∀ (l1 l2 : List ListingFields) (ctr : Nat),
      specAssignIds now fmt ctr (l1 ++ l2)
        = specAssignIds now fmt ctr l1 ++ specAssignIds now fmt (ctr + l1.length) l2 := by
  intro l1
  induction l1 with
  | nil => intro l2 ctr; simp [specAssignIds]
  | cons f rest ih =>
    intro l2 ctr
    simp only [List.cons_append, specAssignIds, List.length_cons, List.append_eq]
    rw [ih l2 (ctr + 1)]
    have h : ctr + 1 + rest.length = ctr + (rest.length + 1) := by omega
    rw [h]

/-- The page loop from an arbitrary counter value. -/
theorem scrapeAvitoPages_eq (now : Int) (fmt : DateOutput → String) :
    ∀ (pages : List PageOutcome) (ctr : Nat),
      scrapeAvitoPages now fmt pages ctr
        = specAssignIds now fmt ctr (okFields pages) := by
  intro pages
  induction pages with
  | nil => intro ctr; simp [scrapeAvitoPages, okFields, specAssignIds]
  | cons p rest ih =>
    intro ctr
    cases p with
    | timeout => simpa [scrapeAvitoPages, okFields] using ih ctr
    | loaded ls =>
      simp only [scrapeAvitoPages, processListings_eq, okFields,
        specAssignIds_append, ih]

/-- C8: within one discovery run, the rows produced by `scrape_avito`
are exactly the successfully constructed listings in order, with the
ordinal counter threaded from 1: ordinals are consecutive, strictly
increasing, never reused, and a per-listing extraction failure or a
skipped page consumes no ordinal and drops nothing else. -/
theorem scrape_avito_ids (now : Int) (fmt : DateOutput → String)
    (pages : List PageOutcome) :
    scrape_avito now fmt pages = specAssignIds now fmt 1 (okFields pages) :=
  scrapeAvitoPages_eq now fmt pages 1

/-- C7: given three image URLs whose downloads succeed, fail, succeed,
the harvester records exactly two asset references, named by the 1-based
positions 1 and 3 of their elements in discovery order — the failed
second download produces no entry, the gap is not renumbered, and the
remaining image is still downloaded. -/
theorem harvestImages_gap (net : String → FetchOutcome) (fs : FS)
    (folder lf u1 u2 u3 ct1 ct3 : String) (c1 c3 : List String)
    (h1 : net u1 = .stream ct1 c1 false)
    (h2 : net u2 = .netErr)
    (h3 : net u3 = .stream ct3 c3 false) :
    (harvestImages net fs folder lf [⟨some u1⟩, ⟨some u2⟩, ⟨some u3⟩] 0).1
      = [folder ++ "/" ++ ("image_1" ++ extFor ct1),
         folder ++ "/" ++ ("image_3" ++ extFor ct3)] := by
  simp only [harvestImages, download_image, h1, h2, h3, Bool.false_eq_true,
    if_false]
  rfl

/-- C7 witness. -/
theorem harvestImages_gap_witness :
    (harvestImages
        (fun u => if u = "b" then .netErr else .stream "image/jpeg" ["x"] false)
        [] "7_Car" "imgs/7_Car" [⟨some "a"⟩, ⟨some "b"⟩, ⟨some "c"⟩] 0).1
      = ["7_Car" ++ "/" ++ ("image_1" ++ extFor "image/jpeg"),
         "7_Car" ++ "/" ++ ("image_3" ++ extFor "image/jpeg")] :=
  harvestImages_gap
    (fun u => if u = "b" then .netErr else .stream "image/jpeg" ["x"] false)
    [] "7_Car" "imgs/7_Car" "a" "b" "c" "image/jpeg" "image/jpeg" ["x"] ["x"]
    (by decide) (by decide) (by decide)

/-- C10: the single-image download is total — a fetch failure or a
mid-stream exception is absorbed and `none` is returned instead of a
filename; a pre-open failure leaves the file system untouched, while an
exception raised after the output file was opened leaves the partially
written chunks on disk (the partial file is not removed); and the
harvesting caller records no asset reference when `none` is returned. -/
theorem download_image_total (net : String → FetchOutcome) (fs : FS)
    (url lf name folder : String) (i : Nat) (ct : String) (chunks : List String) :
    (net url = .netErr →
      download_image net fs url lf name = (none, fs) ∧
      (harvestImages net fs folder lf [⟨some url⟩] i).1 = []) ∧
    (net url = .stream ct chunks true →
      download_image net fs url lf name
        = (none, (lf ++ "/" ++ name ++ extFor ct, chunks) :: fs) ∧
      (harvestImages net fs folder lf [⟨some url⟩] i).1 = []) := by
  constructor
  · intro h
    constructor
    · simp only [download_image, h]
    · simp only [harvestImages, download_image, h]
  · intro h
    constructor
    · simp only [download_image, h, if_true]
    · simp only [harvestImages, download_image, h, if_true]

/-- C10 witness: a dead URL (request raises) and a URL whose stream is
interrupted after one chunk; the second leaves the partial file on
disk. -/
theorem download_image_total_witness :
    (download_image
        (fun u => if u = "dead" then FetchOutcome.netErr
          else .stream "image/png" ["p1"] true)
        [] "dead" "imgs/1_A" "image_1" = (none, []) ∧
      (harvestImages
          (fun u => if u = "dead" then FetchOutcome.netErr
            else .stream "image/png" ["p1"] true)
          [] "1_A" "imgs/1_A" [⟨some "dead"⟩] 0).1 = []) ∧
    (download_image
        (fun u => if u = "dead" then FetchOutcome.netErr
          else .stream "image/png" ["p1"] true)
        [] "cut" "imgs/1_A" "image_1"
        = (none, ("imgs/1_A" ++ "/" ++ "image_1" ++ extFor "image/png", ["p1"]) :: []) ∧
      (harvestImages
          (fun u => if u = "dead" then FetchOutcome.netErr
            else .stream "image/png" ["p1"] true)
          [] "1_A" "imgs/1_A" [⟨some "cut"⟩] 0).1 = []) :=
  ⟨(download_image_total
      (fun u => if u = "dead" then FetchOutcome.netErr
        else .stream "image/png" ["p1"] true)
      [] "dead" "imgs/1_A" "image_1" "1_A" 0 "image/png" ["p1"]).1 (by decide),
   (download_image_total
      (fun u => if u = "dead" then FetchOutcome.netErr
        else .stream "image/png" ["p1"] true)
      [] "cut" "imgs/1_A" "image_1" "1_A" 0 "image/png" ["p1"]).2 (by decide)⟩

/-- No branch of the label chain writes `seller_city`. -/
theorem applyAttr_seller_city (st : DetailState) (a : AttrElem) :
    (applyAttr st a).seller_city = st.seller_city := by
  rcases a with ⟨pair⟩
  cases pair with
  | none => rfl
  | some p =>
    rcases p with ⟨v, lbl⟩
    simp only [applyAttr]
    cases labelSlot lbl <;> rfl

/-- `seller_city` survives the whole attribute scan. -/
theorem foldl_seller_city (l : List AttrElem) :
    ∀ st : DetailState, (l.foldl applyAttr st).seller_city = st.seller_city := by
  induction l with
  | nil => intro st; rfl
  | cons a rest ih =>
    intro st
    rw [List.foldl_cons, ih, applyAttr_seller_city]

/-- An attribute that does not reach the `"Secteur"` branch leaves
`location` unchanged. -/
theorem applyAttr_location_preserved (st : DetailState) (a : AttrElem)
    (h : writesLocation a = false) :
    (applyAttr st a).location = st.location := by
  rcases a with ⟨pair⟩
  cases pair with
  | none => rfl
  | some p =>
    rcases p with ⟨v, lbl⟩
    simp only [writesLocation, secteurBranch, beq_eq_false_iff_ne, ne_eq] at h
    simp only [applyAttr]
    cases hs : labelSlot lbl <;> first | rfl | exact absurd hs h

/-- `location` survives a scan suffix containing no `"Secteur"`
attribute. -/
theorem foldl_location_preserved (l : List AttrElem)
    (hl : ∀ a ∈ l, writesLocation a = false) :
    ∀ st : DetailState, (l.foldl applyAttr st).location = st.location := by
  induction l with
  | nil => intro st; rfl
  | cons a rest ih =>
    intro st
    rw [List.foldl_cons,
      ih (fun x hx => hl x (List.mem_cons_of_mem a hx)),
      applyAttr_location_preserved st a (hl a (List.mem_cons_self a rest))]

/-- An attribute that reaches the `"Secteur"` branch overwrites
`location` with its value. -/
theorem applyAttr_secteur (st : DetailState) (v lbl : String)
    (h : secteurBranch lbl = true) :
    (applyAttr st ⟨some (v, lbl)⟩).location = v := by
  simp only [secteurBranch, beq_iff_eq] at h
  simp only [applyAttr, h, writeSlot]

/-- Projections of `detailFields` before the equipment step. -/
theorem detailFields_carType (page : DetailPage) :
    (detailFields page).car_type
      = (applyCategoryFallback
          (page.attrs.foldl applyAttr (headerState page.headerLoc))
          page.categoryFallback).car_type := rfl

/-- The header step leaves `car_type` at the sentinel. -/
theorem headerState_carType (hl : Option String) :
    (headerState hl).car_type = "N/A" := by
  cases hl <;> rfl

/-- An attribute that does not reach the `car_type` branch leaves
`car_type` unchanged. -/
theorem applyAttr_carType_preserved (st : DetailState) (a : AttrElem)
    (h : writesCarType a = false) :
    (applyAttr st a).car_type = st.car_type := by
  rcases a with ⟨pair⟩
  cases pair with
  | none => rfl
  | some p =>
    rcases p with ⟨v, lbl⟩
    simp only [writesCarType, carTypeBranch, beq_eq_false_iff_ne, ne_eq] at h
    simp only [applyAttr]
    cases hs : labelSlot lbl <;> first | rfl | exact absurd hs h

/-- `car_type` survives a scan in which no attribute reaches the
`car_type` branch. -/
theorem foldl_carType_preserved (l : List AttrElem)
    (hl : ∀ a ∈ l, writesCarType a = false) :
    ∀ st : DetailState, (l.foldl applyAttr st).car_type = st.car_type := by
  induction l with
  | nil => intro st; rfl
  | cons a rest ih =>
    intro st
    rw [List.foldl_cons,
      ih (fun x hx => hl x (List.mem_cons_of_mem a hx)),
      applyAttr_carType_preserved st a (hl a (List.mem_cons_self a rest))]

/-- The category fallback only touches `car_type`. -/
theorem applyCategoryFallback_location (st : DetailState) (fb : Option String) :
    (applyCategoryFallback st fb).location = st.location ∧
    (applyCategoryFallback st fb).seller_city = st.seller_city := by
  simp only [applyCategoryFallback]
  split
  · cases fb <;> exact ⟨rfl, rfl⟩
  · exact ⟨rfl, rfl⟩

/-- C9: when the page has both the seller-location header and a
labelled attribute reaching the `"Secteur"` branch (and no later
attribute reaches it), the returned location/sector field equals the
`"Secteur"` value while the returned seller-city field still equals the
first comma segment of the header text — the two location-derived
fields of one detail record can disagree. -/
theorem detail_secteur_overwrite (page : DetailPage) (folder s v lbl : String)
    (pre post : List AttrElem)
    (hloc : page.headerLoc = some s)
    (hattrs : page.attrs = pre ++ AttrElem.mk (some (v, lbl)) :: post)
    (hsect : secteurBranch lbl = true)
    (hpost : ∀ a ∈ post, writesLocation a = false) :
    (detailFields page).location = v ∧
    (detailFields page).seller_city = firstSegment s ∧
    (SelectPages.detailRecord page folder).get? 1 = some v ∧
    (SelectPages.detailRecord page folder).get? 11 = some (firstSegment s) := by
  have hL : (detailFields page).location = v := by
    simp only [detailFields, (applyCategoryFallback_location _ _).1, hattrs,
      List.foldl_append, List.foldl_cons]
    rw [foldl_location_preserved post hpost, applyAttr_secteur _ v lbl hsect]
  have hC : (detailFields page).seller_city = firstSegment s := by
    simp only [detailFields, (applyCategoryFallback_location _ _).2,
      foldl_seller_city, hloc, headerState]
  exact ⟨hL, hC, by simp only [SelectPages.detailRecord, List.get?, hL],
    by simp only [SelectPages.detailRecord, List.get?, hC]⟩

/-- C9 witness: a header "Casablanca, Maarif" together with a
`Secteur: Agadir` attribute yields sector "Agadir" but seller-city
"Casablanca". -/
theorem detail_secteur_overwrite_witness :
    (detailFields ⟨false, [], [], some "Casablanca, Maarif",
        [AttrElem.mk (some ("Agadir", "Secteur"))], none, [], false⟩).location
      = "Agadir" ∧
    (detailFields ⟨false, [], [], some "Casablanca, Maarif",
        [AttrElem.mk (some ("Agadir", "Secteur"))], none, [], false⟩).seller_city
      = firstSegment "Casablanca, Maarif" ∧
    (SelectPages.detailRecord ⟨false, [], [], some "Casablanca, Maarif",
        [AttrElem.mk (some ("Agadir", "Secteur"))], none, [], false⟩ "1_A").get? 1
      = some "Agadir" ∧
    (SelectPages.detailRecord ⟨false, [], [], some "Casablanca, Maarif",
        [AttrElem.mk (some ("Agadir", "Secteur"))], none, [], false⟩ "1_A").get? 11
      = some (firstSegment "Casablanca, Maarif") :=
  detail_secteur_overwrite
    ⟨false, [], [], some "Casablanca, Maarif",
      [AttrElem.mk (some ("Agadir", "Secteur"))], none, [], false⟩
    "1_A" "Casablanca, Maarif" "Agadir" "Secteur" [] []
    rfl rfl (by decide) (by decide)

/-- C3 counterexample: the car-type field is resolved by a two-strategy
chain (labelled-attribute scan, then the `Categorie` fallback).  On a
page whose matching label carries EMPTY value text while the fallback
element holds "Sportive", the resolver returns the empty string: a
located element with empty text is not treated as "try next strategy",
contradicting the claim (which would require "Sportive", and in any case
never a non-sentinel empty result). -/
theorem resolver_empty_text_accepted :
    (detailFields ⟨false, [], [], none,
        [AttrElem.mk (some ("", "Type de véhicule"))], some "Sportive", [],
        false⟩).car_type = "" ∧
    (detailFields ⟨false, [], [], none,
        [AttrElem.mk (some ("", "Type de véhicule"))], some "Sportive", [],
        false⟩).car_type ≠ "Sportive" ∧
    (detailFields ⟨false, [], [], none,
        [AttrElem.mk (some ("", "Type de véhicule"))], some "Sportive", [],
        false⟩).car_type ≠ "N/A" := by
  refine ⟨?_, ?_, ?_⟩ <;> decide

/-- C3 amended: strategies are tried in order and an absent element or a
throwing traversal is absorbed as "try next" — a throwing attribute
element changes nothing, and when no strategy succeeds the sentinel is
returned; but a located element with empty text counts as a success: its
(possibly empty) value is returned as-is and the next strategy is
consulted only while the slot still holds the sentinel. -/
theorem resolver_chain_semantics :
    (∀ page : DetailPage,
      detailFields { page with attrs := AttrElem.mk none :: page.attrs }
        = detailFields page) ∧
    (∀ page : DetailPage, (∀ a ∈ page.attrs, writesCarType a = false) →
      page.categoryFallback = none → (detailFields page).car_type = "N/A") ∧
    (∀ (sf : Bool) (pi ai : List ImgElem) (hl : Option String) (v lbl : String)
        (fb : Option String) (lv : List (String × String)) (er : Bool),
      carTypeBranch lbl = true → v ≠ "N/A" →
      (detailFields ⟨sf, pi, ai, hl, [AttrElem.mk (some (v, lbl))], fb, lv,
          er⟩).car_type = v) := by
  refine ⟨fun page => rfl, fun page hattrs hfb => ?_, ?_⟩
  · rw [detailFields_carType, hfb]
    have h1 : (page.attrs.foldl applyAttr (headerState page.headerLoc)).car_type
        = "N/A" := by
      rw [foldl_carType_preserved page.attrs hattrs, headerState_carType]
    simp only [applyCategoryFallback, h1, if_pos]
  · intro sf pi ai hl v lbl fb lv er hct hv
    have hslot : labelSlot lbl = Slot.car_type := by
      simpa only [carTypeBranch, beq_iff_eq] using hct
    rw [detailFields_carType]
    have h2 : (applyAttr (headerState hl) (AttrElem.mk (some (v, lbl)))).car_type
        = v := by
      simp only [applyAttr, hslot, writeSlot]
    simp [applyCategoryFallback, h2, hv]

/-- C3 witness for the amended statement. -/
theorem resolver_chain_semantics_witness :
    detailFields { (⟨false, [], [], none, [AttrElem.mk none], none, [], false⟩ :
        DetailPage) with
        attrs := AttrElem.mk none ::
          (⟨false, [], [], none, [AttrElem.mk none], none, [], false⟩ :
            DetailPage).attrs }
      = detailFields ⟨false, [], [], none, [AttrElem.mk none], none, [], false⟩ ∧
    (detailFields ⟨false, [], [], none, [AttrElem.mk none], none, [],
        false⟩).car_type = "N/A" ∧
    (detailFields ⟨false, [], [], none,
        [AttrElem.mk (some ("", "Type de véhicule"))], some "Sportive", [],
        false⟩).car_type = "" :=
  ⟨resolver_chain_semantics.1
      ⟨false, [], [], none, [AttrElem.mk none], none, [], false⟩,
   resolver_chain_semantics.2.1
      ⟨false, [], [], none, [AttrElem.mk none], none, [], false⟩
      (by decide) rfl,
   resolver_chain_semantics.2.2 false [] [] none "" "Type de véhicule"
      (some "Sportive") [] false (by decide) (by decide)⟩

/-- C1: in the select-pages detail extractor the navigation call
`driver.get(url)` happens BEFORE the top-level `try`, so a hard
navigation failure escapes `scrape_details`, and `process_detailed_data`
calls it without a handler: the exception crosses the listing boundary
and aborts the remaining listings — here a run of two listings whose
first detail visit times out produces no rows at all, contradicting the
claim that the failure is converted into an all-unknown record and the
run completes. -/
theorem navfail_propagates :
    SelectPages.scrape_details (fun _ => FetchOutcome.netErr) [] "1_Car_A"
      .navFail = .error () ∧
    SelectPages.process_detailed_data (fun _ => FetchOutcome.netErr) []
      [(["1", "Car A", "100 DH", "2025-01-01", "2020", "Diesel", "Automatique",
         "Particulier", "https://a", "1_Car_A"], VisitOutcome.navFail),
       (["2", "Car B", "200 DH", "2025-01-02", "2021", "Essence", "Manuelle",
         "Particulier", "https://b", "2_Car_B"],
        VisitOutcome.loaded ⟨false, [], [], none, [], none, [], false⟩)]
      = .error () := by
  exact ⟨rfl, rfl⟩

/-- C2: in the last-page variant every combined data row has 22 fields —
8 basic columns plus the 14-entry detail record (uniformly, whether the
detail visit resolved or failed) — while `complete_headers` has only 21
columns: the header row lacks a column for the comma-joined asset paths,
so data rows never match the header's cardinality. -/
theorem header_row_cardinality_mismatch :
    LastPage.complete_headers.length = 21 ∧
    (∀ page folder paths, (LastPage.detailRecord page folder paths).length = 14) ∧
    (∀ folder, (LastPage.failureRecord folder).length = 14) ∧
    (∀ (now : Int) (fmt : DateOutput → String) (i : Nat) (f : ListingFields)
        (page : DetailPage) (folder : String) (paths : List String),
      (LastPage.combinedRow (mkRow now fmt i f)
          (LastPage.detailRecord page folder paths)).length = 22 ∧
      (LastPage.combinedRow (mkRow now fmt i f)
          (LastPage.failureRecord folder)).length = 22 ∧
      (LastPage.combinedRow (mkRow now fmt i f)
          (LastPage.detailRecord page folder paths)).length
        ≠ LastPage.complete_headers.length) := by
  refine ⟨rfl, fun page folder paths => rfl, fun folder => rfl,
    fun now fmt i f page folder paths => ⟨rfl, rfl, ?_⟩⟩
  rw [show (LastPage.combinedRow (mkRow now fmt i f)
      (LastPage.detailRecord page folder paths)).length = 22 from rfl]
  decide
